import Mathlib

/-!
Verification of the deployments model (src/model/deployment.go): status
vocabulary, targeting validation, the deployment entity, its status
aggregation (IsNotPending / IsFinished / GetStatus) and the external JSON
serialization (MarshalJSON).

Go strings become `String`, Go `int` becomes `Int` (counter and device-count
arithmetic never approaches machine bounds), pointers become `Option`, slices
become `List`, and `time.Time` is kept abstract as an integer instant. The
effectful inputs of construction (current time, freshly generated UUID) are
passed as explicit parameters.
-/

/-- `time.Time` kept abstract: only presence/absence of timestamps matters. -/
abbrev Time := Int

/-- `type DeploymentStatus string` -/
abbrev DeploymentStatus := String

/-- `type DeploymentType string` -/
abbrev DeploymentType := String

def DeploymentStatusFinished : DeploymentStatus := "finished"

def DeploymentStatusInProgress : DeploymentStatus := "inprogress"

def DeploymentStatusPending : DeploymentStatus := "pending"

def DeploymentTypeSoftware : DeploymentType := "software"

def DeploymentTypeConfiguration : DeploymentType := "configuration"

/-- The error values the model returns. `errInvalidValue` is the error of the
ozzo-validation `In` rule ("must be a valid value"); `errStructural` stands for
the field-error collection `validation.ValidateStruct` returns when a field
rule fails; the three deployment-definition errors are the package-level error
values of deployment.go. -/
inductive ModelError where
  | errInvalidValue
  | errStructural
  | errInvalidDeploymentDefinitionNoDevices
  | errInvalidDeploymentDefinitionConflict
  | errInvalidDeploymentToGroupDefinitionConflict
deriving DecidableEq

/-- ozzo-validation v4 `validation.In(elements...).Validate(value)` for a
string-kinded value: a nil or empty value is considered valid (rejecting empty
values is the `Required` rule's job), otherwise the value must equal one of the
listed elements, else the invalid-value error is returned. -/
def validationIn (elements : List String) (value : String) : Option ModelError :=
  if value = "" then none
  else if value ∈ elements then none
  else some ModelError.errInvalidValue

/-- `func (stat DeploymentStatus) Validate() error` -/
def DeploymentStatus.Validate (stat : DeploymentStatus) : Option ModelError :=
  validationIn [DeploymentStatusFinished, DeploymentStatusInProgress,
    DeploymentStatusPending] stat

/-- `func (typ DeploymentType) Validate() error` -/
def DeploymentType.Validate (typ : DeploymentType) : Option ModelError :=
  validationIn [DeploymentTypeSoftware, DeploymentTypeConfiguration] typ

/-- `DeploymentConstructor`: name, artifact name, device list, all-devices
flag and group (the exact field set of deployment.go). -/
structure DeploymentConstructor where
  Name : String
  ArtifactName : String
  Devices : List String
  AllDevices : Bool
  Group : String
deriving DecidableEq

/-- ozzo `validation.Required` for a string: fails exactly on the empty
string. -/
def validationRequiredString (s : String) : Bool := s ≠ ""

/-- Modelled from the spec: `lengthIn1To4096` is defined outside the given
sources; per the spec, name and artifact name must have "length in [1, 4096]".
The ozzo `Length` rule skips empty values and measures a string in bytes. -/
def lengthIn1To4096 (s : String) : Bool :=
  s = "" || (1 ≤ s.utf8ByteSize && s.utf8ByteSize ≤ 4096)

/-- `func (c DeploymentConstructor) Validate() error`: Name and ArtifactName
required with length in [1, 4096], every entry of Devices required
(non-empty). -/
def DeploymentConstructor.Validate (c : DeploymentConstructor) : Option ModelError :=
  if validationRequiredString c.Name && lengthIn1To4096 c.Name
      && validationRequiredString c.ArtifactName && lengthIn1To4096 c.ArtifactName
      && c.Devices.all validationRequiredString then
    none
  else
    some ModelError.errStructural

/-- `func (c DeploymentConstructor) ValidateNew() error`: structural validation
first, then the targeting-mode rules (`len(c.Group) == 0` is `c.Group = ""`;
`len(c.Devices)` is `c.Devices.length`). -/
def DeploymentConstructor.ValidateNew (c : DeploymentConstructor) : Option ModelError :=
  match c.Validate with
  | some err => some err
  | none =>
    if c.Group = "" then
      if c.Devices.length = 0 && !c.AllDevices then
        some ModelError.errInvalidDeploymentDefinitionNoDevices
      else if c.Devices.length > 0 && c.AllDevices then
        some ModelError.errInvalidDeploymentDefinitionConflict
      else
        none
    else
      if c.Devices.length > 0 || c.AllDevices then
        some ModelError.errInvalidDeploymentToGroupDefinitionConflict
      else
        none

/-- State-passing embedding of `Validate`: Go passes the receiver by value and
the body only reads fields through the validation rules, so the receiver comes
back alongside the result. -/
def DeploymentConstructor.ValidateSt (c : DeploymentConstructor) :
    Option ModelError × DeploymentConstructor :=
  (c.Validate, c)

/-- State-passing embedding of `ValidateNew`: the receiver is threaded through
every step of the Go body (which never assigns to it). -/
def DeploymentConstructor.ValidateNewSt (c : DeploymentConstructor) :
    Option ModelError × DeploymentConstructor :=
  match c.ValidateSt with
  | (some err, c1) => (some err, c1)
  | (none, c1) =>
    if c1.Group = "" then
      if c1.Devices.length = 0 && !c1.AllDevices then
        (some ModelError.errInvalidDeploymentDefinitionNoDevices, c1)
      else if c1.Devices.length > 0 && c1.AllDevices then
        (some ModelError.errInvalidDeploymentDefinitionConflict, c1)
      else
        (none, c1)
    else
      if c1.Devices.length > 0 || c1.AllDevices then
        (some ModelError.errInvalidDeploymentToGroupDefinitionConflict, c1)
      else
        (none, c1)

/-- Modelled from the spec: the `Stats` type is defined outside the given
sources; per the spec it maps each of the thirteen device deployment statuses
(downloading, installing, rebooting, success, already-installed, failure,
aborted, no-artifact, decommissioned, pause-before-install,
pause-before-commit, pause-before-reboot, pending) to an integer counter.
Embedded as a record with one counter per status. -/
structure Stats where
  downloading : Int
  installing : Int
  rebooting : Int
  success : Int
  alreadyInst : Int
  failure : Int
  aborted : Int
  noArtifact : Int
  decommissioned : Int
  pauseBeforeInstall : Int
  pauseBeforeCommit : Int
  pauseBeforeReboot : Int
  pending : Int
deriving DecidableEq

/-- Modelled from the spec: `NewDeviceDeploymentStats` is defined outside the
given sources; per the spec, creation "initializes `stats` to all-zero". -/
def NewDeviceDeploymentStats : Stats := ⟨0, 0, 0, 0, 0, 0, 0, 0, 0, 0, 0, 0, 0⟩

/-- `Deployment`: the exact field set of deployment.go. The embedded
`*DeploymentConstructor` and the pointer-valued fields become `Option`;
`Type` is spelled `Type_` because `Type` is reserved in Lean. -/
structure Deployment where
  DeploymentConstructor : Option DeploymentConstructor
  Created : Option Time
  Finished : Option Time
  Id : String
  Artifacts : List String
  Stats : Stats
  Status : DeploymentStatus
  DeviceCount : Option Int
  MaxDevices : Int
  DeviceList : List String
  Type_ : DeploymentType
  Configuration : List Nat
deriving DecidableEq

/-- `func NewDeployment() (*Deployment, error)`: the current time and the
freshly generated UUID are environment effects, passed as parameters; the Go
error result is constantly nil and is dropped. Unmentioned fields get their Go
zero values. -/
def NewDeployment (now : Time) (uid : String) : Deployment :=
  { DeploymentConstructor := some ⟨"", "", [], false, ""⟩
  , Created := some now
  , Finished := none
  , Id := uid
  , Artifacts := []
  , Stats := NewDeviceDeploymentStats
  , Status := ""
  , DeviceCount := none
  , MaxDevices := 0
  , DeviceList := []
  , Type_ := ""
  , Configuration := [] }

/-- `func NewDeploymentFromConstructor(constructor *DeploymentConstructor)`:
builds on `NewDeployment`, then installs the constructor, sets the status to
pending and points `DeviceCount` at 0. The Go error result is constantly nil
and is dropped. -/
def NewDeploymentFromConstructor (now : Time) (uid : String)
    (constructor : DeploymentConstructor) : Deployment :=
  { NewDeployment now uid with
      DeploymentConstructor := some constructor
    , Status := DeploymentStatusPending
    , DeviceCount := some 0 }

/-- `func (d *Deployment) IsNotPending() bool`: true when any of the eleven
listed counters is positive (the pending and decommissioned counters are not
read). -/
def Deployment.IsNotPending (d : Deployment) : Bool :=
  if d.Stats.downloading > 0 ||
      d.Stats.installing > 0 ||
      d.Stats.rebooting > 0 ||
      d.Stats.success > 0 ||
      d.Stats.alreadyInst > 0 ||
      d.Stats.failure > 0 ||
      d.Stats.aborted > 0 ||
      d.Stats.noArtifact > 0 ||
      d.Stats.pauseBeforeInstall > 0 ||
      d.Stats.pauseBeforeCommit > 0 ||
      d.Stats.pauseBeforeReboot > 0 then
    true
  else
    false

/-- `func (d *Deployment) IsFinished() bool`: true when the Finished timestamp
is set, or MaxDevices is positive and the six terminal counters sum to at
least MaxDevices. -/
def Deployment.IsFinished (d : Deployment) : Bool :=
  if d.Finished.isSome ||
      (d.MaxDevices > 0 &&
        (d.Stats.alreadyInst +
          d.Stats.success +
          d.Stats.failure +
          d.Stats.noArtifact +
          d.Stats.decommissioned +
          d.Stats.aborted ≥ d.MaxDevices)) then
    true
  else
    false

/-- `func (d *Deployment) GetStatus() DeploymentStatus` -/
def Deployment.GetStatus (d : Deployment) : DeploymentStatus :=
  if d.IsFinished then
    DeploymentStatusFinished
  else if d.IsNotPending then
    DeploymentStatusInProgress
  else
    DeploymentStatusPending

/-- The JSON values the serializer produces; the only array it ever emits is
an array of strings (the artifact list), kept as one constructor. -/
inductive Json where
  | null
  | str (s : String)
  | num (n : Int)
  | bool (b : Bool)
  | strArr (xs : List String)
deriving DecidableEq

/-- The character list of the standard base64 alphabet. -/
def base64Alphabet : List Char :=
  "ABCDEFGHIJKLMNOPQRSTUVWXYZabcdefghijklmnopqrstuvwxyz0123456789+/".toList

def base64Char (n : Nat) : Char := base64Alphabet.getD n 'A'

/-- Standard base64, three input bytes per four output characters, '='
padding. -/
def base64Groups : List Nat → List Char
  | [] => []
  | [b1] => [base64Char (b1 / 4), base64Char (b1 % 4 * 16), '=', '=']
  | [b1, b2] => [base64Char (b1 / 4), base64Char (b1 % 4 * 16 + b2 / 16),
      base64Char (b2 % 16 * 4), '=']
  | b1 :: b2 :: b3 :: rest =>
      base64Char (b1 / 4) :: base64Char (b1 % 4 * 16 + b2 / 16) ::
        base64Char (b2 % 16 * 4 + b3 / 64) :: base64Char (b3 % 64) ::
        base64Groups rest

/-- Go `encoding/json` encodes a `[]byte` as its standard base64 string. -/
def base64Encode (bs : List Nat) : String := String.mk (base64Groups bs)

/-- `time.Time` marshals to an RFC 3339 string; with time abstract, its JSON
image is kept as the underlying instant. -/
def jsonTime (t : Time) : Json := Json.num t

/-- `func (d *Deployment) MarshalJSON() ([]byte, error)`: the object produced,
as its ordered key/value list (the serialization to bytes is dropped; the Go
error result is nil for these values). The wrapper struct embeds the
deployment and declares its own `Devices` (set to nil, tag
`devices,omitempty`) and `Type` fields, which dominate the promoted fields of
the same JSON names, so the `devices` key is never emitted and the emitted
type is the deployment's, defaulted to software when empty. All other fields
are promoted with their original tags: `group`, `Stats` and `DeviceList` carry
tag "-" (never emitted); `name`, `artifact_name`, `all_devices`, `finished`,
`artifacts`, `max_devices` and `configuration` carry `omitempty` and are
dropped at their zero values; `created`, `id`, `status` and `device_count` are
always emitted; a nil embedded constructor pointer drops its promoted fields.
Keys appear in Go's field-index order. -/
def Deployment.MarshalJSON (d : Deployment) : List (String × Json) :=
  (match d.DeploymentConstructor with
    | none => []
    | some c =>
      (if c.Name = "" then [] else [("name", Json.str c.Name)]) ++
      (if c.ArtifactName = "" then [] else [("artifact_name", Json.str c.ArtifactName)]) ++
      (if c.AllDevices then [("all_devices", Json.bool c.AllDevices)] else [])) ++
  [("created", match d.Created with | none => Json.null | some t => jsonTime t)] ++
  (match d.Finished with | none => [] | some t => [("finished", jsonTime t)]) ++
  [("id", Json.str d.Id)] ++
  (if d.Artifacts.length = 0 then [] else [("artifacts", Json.strArr d.Artifacts)]) ++
  [("status", Json.str d.Status)] ++
  [("device_count", match d.DeviceCount with | none => Json.null | some n => Json.num n)] ++
  (if d.MaxDevices = 0 then [] else [("max_devices", Json.num d.MaxDevices)]) ++
  (if d.Configuration.length = 0 then []
    else [("configuration", Json.str (base64Encode d.Configuration))]) ++
  (if (if d.Type_ = "" then DeploymentTypeSoftware else d.Type_) = "" then []
    else [("type", Json.str (if d.Type_ = "" then DeploymentTypeSoftware else d.Type_))])

/-! Concrete values used by the closed (witness / counterexample) theorems. -/

/-- A constructor naming explicit devices and setting the all-devices flag. -/
def cBothModes : DeploymentConstructor := ⟨"r1", "app-v2", ["d1", "d2"], true, ""⟩

/-- A constructor targeting by group only. -/
def cGroupOnly : DeploymentConstructor := ⟨"r1", "app-v2", [], false, "g1"⟩

/-- A deployment created for all devices (constructor has `AllDevices = true`). -/
def dAllDevices : Deployment :=
  { DeploymentConstructor := some ⟨"r1", "app-v2", [], true, ""⟩
  , Created := some 0
  , Finished := none
  , Id := "f81d4fae-7dec-11d0-a765-00a0c91e6bf6"
  , Artifacts := []
  , Stats := NewDeviceDeploymentStats
  , Status := DeploymentStatusPending
  , DeviceCount := some 0
  , MaxDevices := 0
  , DeviceList := []
  , Type_ := ""
  , Configuration := [] }

/-- A deployment whose only positive counter is `decommissioned = 1`, with
`MaxDevices = 2` and no Finished timestamp. -/
def dDecommOnly : Deployment :=
  { DeploymentConstructor := some ⟨"r1", "app-v2", ["d1", "d2"], false, ""⟩
  , Created := some 0
  , Finished := none
  , Id := "f81d4fae-7dec-11d0-a765-00a0c91e6bf6"
  , Artifacts := []
  , Stats := { NewDeviceDeploymentStats with decommissioned := 1 }
  , Status := DeploymentStatusPending
  , DeviceCount := some 0
  , MaxDevices := 2
  , DeviceList := []
  , Type_ := ""
  , Configuration := [] }

/-- Claim C1: `GetStatus` evaluates with precedence finished > inprogress >
pending: it returns finished whenever `IsFinished` is true — in particular
whenever the `Finished` timestamp is explicitly set, regardless of counter
values — otherwise inprogress whenever `IsNotPending` is true, and pending
otherwise. -/
theorem getStatus_precedence (d : Deployment) :
    d.GetStatus = (if d.IsFinished then DeploymentStatusFinished
      else if d.IsNotPending then DeploymentStatusInProgress
      else DeploymentStatusPending)
    ∧ ∀ t : Time, Deployment.GetStatus { d with Finished := some t } =
        DeploymentStatusFinished := by
  refine ⟨rfl, fun t => ?_⟩
  simp [Deployment.GetStatus, Deployment.IsFinished]

/-- Claim C2: `IsFinished` is true iff the `Finished` timestamp is set, or
`MaxDevices > 0` and the sum already-installed + success + failure +
no-artifact + decommissioned + aborted is at least `MaxDevices`; with
`MaxDevices = 0` and `Finished` unset it is false, whatever the counters. -/
theorem isFinished_characterization (d : Deployment) :
    (d.IsFinished = true ↔ (d.Finished ≠ none ∨ (0 < d.MaxDevices ∧
      d.MaxDevices ≤ d.Stats.alreadyInst + d.Stats.success + d.Stats.failure +
        d.Stats.noArtifact + d.Stats.decommissioned + d.Stats.aborted)))
    ∧ Deployment.IsFinished { d with MaxDevices := 0, Finished := none } = false := by
  constructor
  · simp [Deployment.IsFinished, Option.isSome_iff_ne_none]
  · simp [Deployment.IsFinished]

/-- Claim C3: `IsNotPending` is true iff at least one of the eleven counters
downloading, installing, rebooting, success, already-installed, failure,
aborted, no-artifact, pause-before-install, pause-before-commit,
pause-before-reboot is positive; the pending and decommissioned counters are
not consulted (changing them never changes the result). -/
theorem isNotPending_characterization (d : Deployment) :
    (d.IsNotPending = true ↔ (0 < d.Stats.downloading ∨ 0 < d.Stats.installing ∨
      0 < d.Stats.rebooting ∨ 0 < d.Stats.success ∨ 0 < d.Stats.alreadyInst ∨
      0 < d.Stats.failure ∨ 0 < d.Stats.aborted ∨ 0 < d.Stats.noArtifact ∨
      0 < d.Stats.pauseBeforeInstall ∨ 0 < d.Stats.pauseBeforeCommit ∨
      0 < d.Stats.pauseBeforeReboot))
    ∧ ∀ p q : Int,
        Deployment.IsNotPending
          { d with Stats := { d.Stats with pending := p, decommissioned := q } } =
          d.IsNotPending := by
  constructor
  · simp [Deployment.IsNotPending, or_assoc]
  · intro p q
    rfl

/-- Claim C4: for a structurally valid constructor with empty `Group`,
`ValidateNew` succeeds iff exactly one of (`Devices` non-empty,
`AllDevices` true) holds; with neither it fails with the no-devices error,
with both it fails with the devices/all-devices conflict error. -/
theorem validateNew_group_empty (c : DeploymentConstructor)
    (hv : c.Validate = none) (hg : c.Group = "") :
    (c.ValidateNew = none ↔
      ((c.Devices ≠ [] ∧ c.AllDevices = false) ∨ (c.Devices = [] ∧ c.AllDevices = true)))
    ∧ (c.Devices = [] ∧ c.AllDevices = false →
        c.ValidateNew = some ModelError.errInvalidDeploymentDefinitionNoDevices)
    ∧ (c.Devices ≠ [] ∧ c.AllDevices = true →
        c.ValidateNew = some ModelError.errInvalidDeploymentDefinitionConflict) := by
  have h : c.ValidateNew = (if c.Devices.length = 0 && !c.AllDevices then
      some ModelError.errInvalidDeploymentDefinitionNoDevices
    else if c.Devices.length > 0 && c.AllDevices then
      some ModelError.errInvalidDeploymentDefinitionConflict
    else none) := by
    unfold DeploymentConstructor.ValidateNew
    rw [hv]
    simp [hg]
  rcases hD : c.Devices with _ | ⟨x, xs⟩ <;> rcases hA : c.AllDevices <;>
    simp_all [h]

/-- Claim C4 witness: the structurally valid constructor `cBothModes` has empty
group, non-empty devices and the all-devices flag, and `ValidateNew` rejects
it with the devices/all-devices conflict error. -/
theorem validateNew_group_empty_witness :
    cBothModes.ValidateNew = some ModelError.errInvalidDeploymentDefinitionConflict :=
  (validateNew_group_empty cBothModes (by decide) rfl).2.2 ⟨by decide, rfl⟩

/-- Claim C5: for a structurally valid constructor with non-empty `Group`,
`ValidateNew` succeeds iff `Devices` is empty and `AllDevices` is false;
otherwise it fails with the group-targeting conflict error. -/
theorem validateNew_group_targeting (c : DeploymentConstructor)
    (hv : c.Validate = none) (hg : c.Group ≠ "") :
    (c.ValidateNew = none ↔ (c.Devices = [] ∧ c.AllDevices = false))
    ∧ ((c.Devices ≠ [] ∨ c.AllDevices = true) →
        c.ValidateNew = some ModelError.errInvalidDeploymentToGroupDefinitionConflict) := by
  have h : c.ValidateNew = (if c.Devices.length > 0 || c.AllDevices then
      some ModelError.errInvalidDeploymentToGroupDefinitionConflict
    else none) := by
    unfold DeploymentConstructor.ValidateNew
    rw [hv]
    simp [hg]
  rcases hD : c.Devices with _ | ⟨x, xs⟩ <;> rcases hA : c.AllDevices <;>
    simp_all [h]

/-- Claim C5 witness: the structurally valid constructor `cGroupOnly` targets a
non-empty group with no devices and `AllDevices = false`, and `ValidateNew`
accepts it. -/
theorem validateNew_group_targeting_witness :
    cGroupOnly.ValidateNew = none :=
  (validateNew_group_targeting cGroupOnly (by decide) (by decide)).1.mpr ⟨rfl, rfl⟩

/-- Claim C6 counterexample: for the deployment `dAllDevices`, whose
constructor sets `AllDevices = true`, `MarshalJSON` emits the `all_devices`
key, so the serialization does not omit the all-devices flag. -/
theorem marshalJSON_emits_all_devices :
    ("all_devices", Json.bool true) ∈ dAllDevices.MarshalJSON ∧
    dAllDevices.Finished = none ∧ dAllDevices.Type_ = "" := by
  refine ⟨?_, rfl, rfl⟩
  have h : dAllDevices.MarshalJSON =
      [("name", Json.str "r1"), ("artifact_name", Json.str "app-v2"),
        ("all_devices", Json.bool true), ("created", Json.num 0),
        ("id", Json.str "f81d4fae-7dec-11d0-a765-00a0c91e6bf6"),
        ("status", Json.str "pending"), ("device_count", Json.num 0),
        ("type", Json.str "software")] := by
    simp [dAllDevices, Deployment.MarshalJSON, jsonTime, DeploymentStatusPending,
      DeploymentTypeSoftware]
  rw [h]
  simp

/-- Claim C6 amended: `MarshalJSON` never emits the `devices` key; it emits the
`all_devices` key exactly when the constructor is present with its
`AllDevices` flag set (the flag's `omitempty` option drops it only when
false); and whenever the deployment's type is empty it emits type software. -/
theorem marshalJSON_keys (d : Deployment) :
    "devices" ∉ d.MarshalJSON.map Prod.fst
    ∧ ("all_devices" ∈ d.MarshalJSON.map Prod.fst ↔
        ∃ c, d.DeploymentConstructor = some c ∧ c.AllDevices = true)
    ∧ (d.Type_ = "" → ("type", Json.str DeploymentTypeSoftware) ∈ d.MarshalJSON) := by
  refine ⟨?_, ?_, ?_⟩
  · simp [Deployment.MarshalJSON, apply_ite (List.map (Prod.fst (α := String) (β := Json)))]
    constructor
    · intro x
      cases hoc : d.DeploymentConstructor with
      | none => simp
      | some c =>
        simp only []
        cases hN : decide (c.Name = "") <;> cases hA2 : decide (c.ArtifactName = "") <;>
          cases hA : c.AllDevices <;> simp_all
    · intro x
      cases hfin : d.Finished <;> simp [jsonTime]
  · simp [Deployment.MarshalJSON, apply_ite (List.map (Prod.fst (α := String) (β := Json)))]
    cases hoc : d.DeploymentConstructor with
    | none =>
      simp
      intro x hx
      exact absurd hx (by cases d.Finished <;> simp [jsonTime])
    | some c =>
      cases hA : c.AllDevices <;> simp <;>
        intro x hx <;>
        exact absurd hx (by cases d.Finished <;> simp [jsonTime])
  · intro hty
    simp [Deployment.MarshalJSON, hty, DeploymentTypeSoftware]

/-- Claim C7: the receiver-threaded embeddings of `Validate` and `ValidateNew`
return the constructor unchanged, and running `ValidateNew` a second time on
the constructor the first run returns yields the same result. -/
theorem validate_pure (c : DeploymentConstructor) :
    c.ValidateSt.2 = c ∧ c.ValidateNewSt.2 = c
    ∧ (c.ValidateNewSt.2).ValidateNewSt.1 = c.ValidateNewSt.1 := by
  have h : c.ValidateNewSt.2 = c := by
    unfold DeploymentConstructor.ValidateNewSt DeploymentConstructor.ValidateSt
    rcases c.Validate with _ | err
    · simp only
      split_ifs <;> rfl
    · rfl
  exact ⟨rfl, h, by rw [h]⟩

/-- Claim C8: `NewDeploymentFromConstructor` produces a deployment carrying
the freshly generated id and the current time, the given constructor,
all-zero stats, status pending, and `DeviceCount` pointing at 0. -/
theorem newDeploymentFromConstructor_fields (now : Time) (uid : String)
    (c : DeploymentConstructor) :
    (NewDeploymentFromConstructor now uid c).Id = uid
    ∧ (NewDeploymentFromConstructor now uid c).Created = some now
    ∧ (NewDeploymentFromConstructor now uid c).DeploymentConstructor = some c
    ∧ (NewDeploymentFromConstructor now uid c).Stats = ⟨0, 0, 0, 0, 0, 0, 0, 0, 0, 0, 0, 0, 0⟩
    ∧ (NewDeploymentFromConstructor now uid c).Status = DeploymentStatusPending
    ∧ (NewDeploymentFromConstructor now uid c).DeviceCount = some 0 :=
  ⟨rfl, rfl, rfl, rfl, rfl, rfl⟩

/-- Claim C9 counterexample: the empty string is neither of the listed values,
yet both `DeploymentStatus.Validate` and `DeploymentType.Validate` accept it
(the ozzo `In` rule treats an empty value as valid), so neither validator
fails on every string outside its enumeration. -/
theorem validate_empty_value_accepted :
    DeploymentStatus.Validate "" = none ∧ DeploymentType.Validate "" = none :=
  ⟨rfl, rfl⟩

/-- Claim C9 amended: `DeploymentStatus.Validate` succeeds exactly on the
empty string and the three values pending, inprogress, finished, and returns
the invalid-value error on every other string; `DeploymentType.Validate`
succeeds exactly on the empty string, software and configuration, and returns
the invalid-value error on every other string. -/
theorem validate_membership (s : String) :
    (DeploymentStatus.Validate s = none ↔
      (s = "" ∨ s = DeploymentStatusPending ∨ s = DeploymentStatusInProgress ∨
        s = DeploymentStatusFinished))
    ∧ (DeploymentStatus.Validate s = none ∨
        DeploymentStatus.Validate s = some ModelError.errInvalidValue)
    ∧ (DeploymentType.Validate s = none ↔
      (s = "" ∨ s = DeploymentTypeSoftware ∨ s = DeploymentTypeConfiguration))
    ∧ (DeploymentType.Validate s = none ∨
        DeploymentType.Validate s = some ModelError.errInvalidValue) := by
  refine ⟨?_, ?_, ?_, ?_⟩ <;>
    simp only [DeploymentStatus.Validate, DeploymentType.Validate, validationIn,
      List.mem_cons, List.not_mem_nil, or_false] <;>
    split_ifs <;> simp_all <;> tauto

/-- Claim C10: for a deployment with `Finished` unset whose only positive
counter is decommissioned, and with `MaxDevices = 0` or the decommissioned
count below `MaxDevices`, `GetStatus` returns pending: decommissioned devices
count toward the finished threshold but never move a deployment out of
pending on their own. -/
theorem getStatus_decommissioned_only_pending (d : Deployment)
    (hf : d.Finished = none)
    (h1 : d.Stats.downloading ≤ 0) (h2 : d.Stats.installing ≤ 0)
    (h3 : d.Stats.rebooting ≤ 0) (h4 : d.Stats.success ≤ 0)
    (h5 : d.Stats.alreadyInst ≤ 0) (h6 : d.Stats.failure ≤ 0)
    (h7 : d.Stats.aborted ≤ 0) (h8 : d.Stats.noArtifact ≤ 0)
    (h9 : d.Stats.pauseBeforeInstall ≤ 0) (h10 : d.Stats.pauseBeforeCommit ≤ 0)
    (h11 : d.Stats.pauseBeforeReboot ≤ 0) (h12 : d.Stats.pending ≤ 0)
    (hdec : 0 < d.Stats.decommissioned)
    (hmax : d.MaxDevices = 0 ∨ d.Stats.decommissioned < d.MaxDevices) :
    d.GetStatus = DeploymentStatusPending := by
  have hnp : d.IsNotPending = false := by
    simp only [Deployment.IsNotPending]
    split_ifs with h
    · exfalso
      simp only [Bool.or_eq_true, decide_eq_true_eq] at h
      omega
    · rfl
  have hfin : d.IsFinished = false := by
    simp only [Deployment.IsFinished]
    split_ifs with h
    · exfalso
      simp only [hf, Bool.or_eq_true, Bool.and_eq_true, decide_eq_true_eq,
        Option.isSome_none] at h
      rcases h with h | ⟨hm, hs⟩
      · exact Bool.false_ne_true h
      · omega
    · rfl
  simp [Deployment.GetStatus, hnp, hfin]

/-- Claim C10 witness: the deployment `dDecommOnly` (decommissioned = 1, every
other counter zero, `MaxDevices = 2`, no Finished timestamp) has status
pending. -/
theorem getStatus_decommissioned_only_pending_witness :
    dDecommOnly.GetStatus = DeploymentStatusPending :=
  getStatus_decommissioned_only_pending dDecommOnly rfl (by decide) (by decide)
    (by decide) (by decide) (by decide) (by decide) (by decide) (by decide)
    (by decide) (by decide) (by decide) (by decide) (by decide)
    (Or.inr (by decide))
